import Mathlib

/-!
Verification of the bagify-backend generation orchestrator.

This file gives a shallow embedding of the provider-fallback logic of
`src/server.js` (endpoint `POST /api/imagen3/generate`, providers
`generateWithDALLE3` and `generateWithGemini`), of the `/diag` handlers of
`src/server.js` and of the Vertex variant (`src/unnamed/part_001`), of the
validation of the Vertex variant `src/unnamed/part_003`, and of the pure
helpers `getRandomItems`, `generateHashtags`, `cleanupBase64`.

Modelling conventions:
- process.env values are `Option String`; JavaScript truthiness of such a
  value (`!!x`) is `truthy`: `none` (undefined) and `some ""` are falsy.
- Outbound HTTP calls (fetch, the Gemini SDK, Google auth) are oracles:
  a record or `Except` value describing what the remote side did.  The
  handler is a pure function of the request, the environment and these
  oracles.  Node's `Buffer.from(x, 'base64').toString('base64')`
  re-encoding is the oracle `bufRoundtrip`.
- A thrown JavaScript `Error` with message `m` is `Except.error m`.
-/

namespace Bagify

/-- JavaScript truthiness of a possibly-undefined string value:
`undefined` and the empty string are falsy, every other string is truthy. -/
def truthy : Option String → Bool
  | none => false
  | some s => !(s == "")

/-- JavaScript `a || b` on possibly-undefined string values. -/
def jsOr (a b : Option String) : Option String :=
  if truthy a then a else b

/-- The environment variables read by the servers under consideration. -/
structure Env where
  OPENAI_API_KEY : Option String
  GEMINI_API_KEY : Option String
  VITE_API_KEY : Option String
  GOOGLE_PRIVATE_KEY : Option String
  GOOGLE_CLIENT_EMAIL : Option String
  GOOGLE_PROJECT_ID : Option String
  deriving DecidableEq

/-! ### Provider A: `generateWithDALLE3` (src/server.js lines 201-245) -/

/-- Oracle for the DALLE-3 HTTP exchange performed by `generateWithDALLE3`:
whether `fetch` threw, the response status/ok flag, the error body text read
on a non-ok response, the `data.data[0].url` field of the parsed JSON body
(`none` models a missing or falsy url, i.e. a malformed body), and the
base64 of the image bytes subsequently downloaded from that url. -/
structure DalleHttp where
  netError : Option String
  ok : Bool
  status : Nat
  errorText : String
  imageUrl : Option String
  downloadedBase64 : String
  deriving DecidableEq

/-- Shallow embedding of `generateWithDALLE3(referenceImageBase64, prompt)`
from src/server.js lines 201-245.  The request payload built from
`referenceImageBase64` and `prompt` is consumed by the network oracle `net`;
the function returns the downloaded base64 image or throws. -/
def generateWithDALLE3 (env : Env) (net : DalleHttp)
    (referenceImageBase64 prompt : Option String) : Except String String :=
  if !(truthy env.OPENAI_API_KEY) then
    .error "OPENAI_API_KEY not set"
  else
    match net.netError with
    | some m => .error m
    | none =>
      if !net.ok then
        .error ("DALLE-3 API error (" ++ toString net.status ++ "): " ++ net.errorText)
      else if !(truthy net.imageUrl) then
        .error "DALLE-3 did not return image URL"
      else
        .ok net.downloadedBase64

/-! ### `cleanupBase64` (src/server.js lines 251-256) -/

/-- Index of the first occurrence of `pat` in a character list, if any. -/
def firstIndexOf (pat : List Char) : List Char → Option Nat
  | [] => none
  | c :: t =>
    if pat.isPrefixOf (c :: t) then some 0
    else (firstIndexOf pat t).map (· + 1)

/-- Replace every occurrence of a character, as JavaScript
`s.replace(/a/g, b)` does for a single character. -/
def replaceChar (a b : Char) (s : String) : String :=
  String.map (fun c => if c = a then b else c) s

/-- The effect of `b64.replace(/^data:.*?;base64,/, "")`: the lazy dot
cannot cross a newline, so the prefix up to the first occurrence of
`";base64,"` is removed exactly when the string starts with `"data:"` and
that first occurrence is not preceded by a newline. -/
def stripDataUrl (s : String) : String :=
  let cs := s.data
  if ("data:".data).isPrefixOf cs then
    let rest := cs.drop 5
    match firstIndexOf (";base64,".data) rest with
    | some i =>
      if (rest.take i).all (· ≠ '\n') then String.mk (rest.drop (i + 8)) else s
    | none => s
  else s

/-- Shallow embedding of `cleanupBase64` from src/server.js lines 251-256:
strip a data-URL prefix, trim, and normalize web-safe base64. -/
def cleanupBase64 (b64 : String) : String :=
  let cleaned := (stripDataUrl b64).trim
  replaceChar '_' '/' (replaceChar '-' '+' cleaned)

/-! ### Provider B: `generateWithGemini` (src/server.js lines 263-336) -/

/-- The `inlineData` field of a Gemini response part. -/
structure InlineData where
  data : Option String
  mimeType : Option String
  deriving DecidableEq

/-- One part of a Gemini candidate content. -/
structure GPart where
  inlineData : Option InlineData
  text : Option String
  deriving DecidableEq

/-- A parsed Gemini `generateContent` response: for each candidate, the
list `candidates[i]?.content?.parts ?? []` after optional-chaining. -/
structure GemResp where
  candidates : List (List GPart)
  deriving DecidableEq

/-- The key resolution `process.env.GEMINI_API_KEY || process.env.VITE_API_KEY`. -/
def geminiApiKey (env : Env) : Option String :=
  jsOr env.GEMINI_API_KEY env.VITE_API_KEY

/-- The predicate `p => p.inlineData?.data && p.inlineData?.mimeType` used
to find the image part of the Gemini response. -/
def partHasImage (p : GPart) : Bool :=
  match p.inlineData with
  | none => false
  | some d => truthy d.data && truthy d.mimeType

/-- The `inlineData.data` payload of a part (empty when absent; only used
on parts selected by `partHasImage`, where it is present). -/
def partData (p : GPart) : String :=
  match p.inlineData with
  | some d => d.data.getD ""
  | none => ""

/-- Shallow embedding of `generateWithGemini(referenceImageBase64,
bagImageBase64, prompt)` from src/server.js lines 263-336.  The request
parts built from the images and the prompt are consumed by the network
oracle `net`; `bufRoundtrip` is Node's
`Buffer.from(x, 'base64').toString('base64')` re-encoding.  Every failure
inside the try block is rethrown as `"Gemini failed: " ++ message`; the
missing-key throw happens before the try block and is not wrapped. -/
def generateWithGemini (env : Env) (net : Except String GemResp)
    (bufRoundtrip : String → String)
    (referenceImageBase64 bagImageBase64 prompt : Option String) :
    Except String String :=
  if !(truthy (geminiApiKey env)) then
    .error "Gemini API key not configured (GEMINI_API_KEY or VITE_API_KEY)"
  else
    match net with
    | .error e => .error ("Gemini failed: " ++ e)
    | .ok resp =>
      match resp.candidates with
      | [] => .error ("Gemini failed: " ++ "Gemini returned no candidates")
      | contentParts :: _ =>
        if contentParts.isEmpty then
          .error ("Gemini failed: " ++ "Gemini returned no content parts")
        else
          match contentParts.find? partHasImage with
          | none => .error ("Gemini failed: " ++ "Gemini response did not contain image data")
          | some p => .ok (bufRoundtrip (cleanupBase64 (partData p)))

/-! ### The endpoint `POST /api/imagen3/generate` (src/server.js lines 556-596) -/

/-- The JSON body and status of a response of the src/server.js endpoint.
Fields which a given response body does not carry are `none`. -/
structure SrvResponse where
  status : Nat
  success : Bool
  image : Option String
  method : Option String
  error : Option String
  deriving DecidableEq

/-- How many times each provider function was invoked while handling one
request (the call-count mock of the spec's testable properties). -/
structure Calls where
  dalle : Nat
  gemini : Nat
  deriving DecidableEq

/-- The request body `{ referenceImageBase64, bagImageBase64, prompt }`. -/
structure GenRequest where
  referenceImageBase64 : Option String
  bagImageBase64 : Option String
  prompt : Option String
  deriving DecidableEq

/-- Shallow embedding of the handler of `POST /api/imagen3/generate` from
src/server.js lines 556-596, instrumented with provider call counts.
Control flow of the source: validate `referenceImageBase64` and `prompt`
(400 on failure); if `OPENAI_API_KEY` is truthy try DALLE-3 and return 200
on success, falling through on a caught error; then call the Gemini
fallback, whose thrown error reaches the outer catch and yields 500 with
`err?.message || 'Generation failed'`. -/
def imagen3Generate (env : Env) (dalleNet : DalleHttp)
    (gemNet : Except String GemResp) (bufRoundtrip : String → String)
    (req : GenRequest) : SrvResponse × Calls :=
  if !(truthy req.referenceImageBase64) || !(truthy req.prompt) then
    (⟨400, false, none, none, some "Missing referenceImageBase64 or prompt"⟩, ⟨0, 0⟩)
  else if truthy env.OPENAI_API_KEY then
    match generateWithDALLE3 env dalleNet req.referenceImageBase64 req.prompt with
    | .ok dalleResult =>
      (⟨200, true, some dalleResult, some "DALLE-3", none⟩, ⟨1, 0⟩)
    | .error _ =>
      match generateWithGemini env gemNet bufRoundtrip
          req.referenceImageBase64 req.bagImageBase64 req.prompt with
      | .ok geminiResult =>
        (⟨200, true, some geminiResult, some "Gemini", none⟩, ⟨1, 1⟩)
      | .error e =>
        (⟨500, false, none, none, some (if e == "" then "Generation failed" else e)⟩, ⟨1, 1⟩)
  else
    match generateWithGemini env gemNet bufRoundtrip
        req.referenceImageBase64 req.bagImageBase64 req.prompt with
    | .ok geminiResult =>
      (⟨200, true, some geminiResult, some "Gemini", none⟩, ⟨0, 1⟩)
    | .error e =>
      (⟨500, false, none, none, some (if e == "" then "Generation failed" else e)⟩, ⟨0, 1⟩)

/-! ### The Vertex variant `src/unnamed/part_003`: endpoint `POST /api/imagen3/generate` -/

/-- Oracle for the external effects of the part_003 handler: the outcome of
`getCredentials()` (throws, or yields parsed credentials whose only field
used downstream is the project id), the outcome of
`jwtClient.authorizeAsync()` (throws, or yields a possibly-undefined
`access_token`), whether the Imagen fetch threw, the response ok flag, the
`JSON.stringify(errorData)` of a non-ok body, and the
`predictions[0].bytesBase64Encoded` payload of an ok body (`none` models a
missing or falsy payload). -/
structure Vertex3Net where
  credentials : Except String String
  accessToken : Except String (Option String)
  fetchError : Option String
  ok : Bool
  errorData : String
  image : Option String

/-- The JSON body and status of a response of the part_003 endpoint.  The
400 validation body `{ error: ... }` carries no `success` field, hence
`success : Option Bool`. -/
structure P3Response where
  status : Nat
  success : Option Bool
  image : Option String
  error : Option String
  deriving DecidableEq

/-- Shallow embedding of the handler of `POST /api/imagen3/generate` from
src/unnamed/part_003 lines 23-103, paired with whether the provider (the
Imagen fetch) was invoked.  All three fields `referenceImageBase64`,
`bagImageBase64` and `prompt` are required; every throw is caught and
surfaced as 500 with the error message. -/
def part003Generate (net : Vertex3Net) (req : GenRequest) : P3Response × Bool :=
  if !(truthy req.referenceImageBase64) || !(truthy req.bagImageBase64)
      || !(truthy req.prompt) then
    (⟨400, none, none, some "Missing required fields"⟩, false)
  else
    match net.credentials with
    | .error e => (⟨500, some false, none, some e⟩, false)
    | .ok _ =>
      match net.accessToken with
      | .error e => (⟨500, some false, none, some e⟩, false)
      | .ok tok =>
        if !(truthy tok) then
          (⟨500, some false, none, some "Failed to obtain access token"⟩, false)
        else
          match net.fetchError with
          | some e => (⟨500, some false, none, some e⟩, true)
          | none =>
            if !net.ok then
              (⟨500, some false, none, some ("Imagen 3 API error: " ++ net.errorData)⟩, true)
            else
              match net.image with
              | none => (⟨500, some false, none, some "Imagen 3 API did not return an image"⟩, true)
              | some img => (⟨200, some true, some img, none⟩, true)

/-! ### `GET /diag` of src/server.js (lines 95-109) -/

/-- The credential-related fields of the src/server.js `/diag` response
(the remaining fields `folder_ids`, `frame_strategy` and `timestamp` are
constants or the clock and mention no credential). -/
structure DiagResp where
  google_drive_authenticated : Bool
  has_openai_api_key : Bool
  has_gemini_api_key : Bool
  deriving DecidableEq

/-- Shallow embedding of the `/diag` handler of src/server.js lines 95-109.
`driveReady` models `!!driveAuthClient`, the startup state of the Google
Drive client. -/
def diag (driveReady : Bool) (env : Env) : DiagResp :=
  ⟨driveReady, truthy env.OPENAI_API_KEY, truthy env.VITE_API_KEY⟩

/-! ### `GET /diag` of the Vertex variant src/unnamed/part_001 (lines 14-22) -/

/-- The effect of `s.replace(/\\n/g, '\n')`: each two-character sequence
backslash-n becomes a newline. -/
def replaceEscapedNL : List Char → List Char
  | '\\' :: 'n' :: t => '\n' :: replaceEscapedNL t
  | c :: t => c :: replaceEscapedNL t
  | [] => []

/-- JavaScript `s.includes(pat)`. -/
def includesSub (s pat : String) : Bool :=
  (firstIndexOf pat.data s.data).isSome

/-- JavaScript `x || null` on a possibly-undefined string value. -/
def jsOrNull (o : Option String) : Option String :=
  if truthy o then o else none

/-- The response body of the part_001 `/diag` handler. -/
structure Diag001Resp where
  project_id : Option String
  client_email : Option String
  has_private_key : Bool
  pk_len : Nat
  deriving DecidableEq

/-- Shallow embedding of the `/diag` handler of src/unnamed/part_001 lines
14-22: it echoes `GOOGLE_PROJECT_ID` and `GOOGLE_CLIENT_EMAIL` (or null),
and reports whether the unescaped private key contains
`"BEGIN PRIVATE KEY"` together with its length. -/
def diag001 (env : Env) : Diag001Resp :=
  let pk := String.mk (replaceEscapedNL (env.GOOGLE_PRIVATE_KEY.getD "").data)
  ⟨jsOrNull env.GOOGLE_PROJECT_ID, jsOrNull env.GOOGLE_CLIENT_EMAIL,
   includesSub pk "BEGIN PRIVATE KEY", pk.length⟩

/-! ### Hashtag generation (src/server.js lines 36-47 and 181-190) -/

/-- The fixed hashtags of src/server.js line 36. -/
def FIXED_HASHTAGS : List String :=
  ["#luxuryhandbag", "#bagoftheday", "#designer", "#fashion"]

/-- The own properties of the object literal `BAG_HASHTAG_MAP`
(src/server.js lines 39-47). -/
def BAG_HASHTAG_MAP : List (String × String) :=
  [("hermes", "#hermes #birkin"),
   ("lv", "#louisvuitton #speedy"),
   ("chanel", "#chanel #flap"),
   ("gucci", "#gucci"),
   ("birkin", "#birkin"),
   ("speedy", "#speedy"),
   ("flap", "#chanelflap")]

/-- A value produced by a JavaScript property read on the object literal:
either one of its own string properties, or a member inherited from
`Object.prototype` (a function or object), recorded here with the string
it coerces to when pushed into the array and joined. -/
inductive JsVal where
  | str (s : String)
  | protoMember (coerced : String)
  deriving DecidableEq

/-- The enumerable and non-enumerable members every object literal inherits
from `Object.prototype`, with the string each coerces to (V8).  A property
read with one of these names on `BAG_HASHTAG_MAP` yields the inherited
member, not `undefined`. -/
def objectPrototypeMembers : List (String × String) :=
  [("constructor", "function Object() \x7b [native code] \x7d"),
   ("hasOwnProperty", "function hasOwnProperty() \x7b [native code] \x7d"),
   ("isPrototypeOf", "function isPrototypeOf() \x7b [native code] \x7d"),
   ("propertyIsEnumerable", "function propertyIsEnumerable() \x7b [native code] \x7d"),
   ("toLocaleString", "function toLocaleString() \x7b [native code] \x7d"),
   ("toString", "function toString() \x7b [native code] \x7d"),
   ("valueOf", "function valueOf() \x7b [native code] \x7d"),
   ("__defineGetter__", "function __defineGetter__() \x7b [native code] \x7d"),
   ("__defineSetter__", "function __defineSetter__() \x7b [native code] \x7d"),
   ("__lookupGetter__", "function __lookupGetter__() \x7b [native code] \x7d"),
   ("__lookupSetter__", "function __lookupSetter__() \x7b [native code] \x7d"),
   ("__proto__", "[object Object]")]

/-- The JavaScript property read `BAG_HASHTAG_MAP[bagName]`: an own
property if the name is one of the seven keys, otherwise a member
inherited from `Object.prototype` if the name is one of those, otherwise
`undefined` (`none`). -/
def bagMapRead (bagName : String) : Option JsVal :=
  match BAG_HASHTAG_MAP.lookup bagName with
  | some v => some (.str v)
  | none => (objectPrototypeMembers.lookup bagName).map .protoMember

/-- JavaScript truthiness of such a property value (after `|| ''`, a falsy
read is replaced by the empty string, which is again falsy): a string is
truthy when non-empty; inherited functions and objects are truthy. -/
def jsValTruthy : JsVal → Bool
  | .str s => !(s == "")
  | .protoMember _ => true

/-- The string a pushed value coerces to inside `allHashtags.join(' ')`. -/
def jsValToString : JsVal → String
  | .str s => s
  | .protoMember coerced => coerced

/-- JavaScript `Array.prototype.join(' ')`. -/
def joinSp : List String → String
  | [] => ""
  | [a] => a
  | a :: rest => a ++ " " ++ joinSp rest

/-- Shallow embedding of `generateHashtags(bagName)` from src/server.js
lines 181-190: read `BAG_HASHTAG_MAP[bagName] || ''`, push it onto a copy
of `FIXED_HASHTAGS` when truthy, and join with single spaces. -/
def generateHashtags (bagName : String) : String :=
  match bagMapRead bagName with
  | some bagHashtag =>
    if jsValTruthy bagHashtag then
      joinSp (FIXED_HASHTAGS ++ [jsValToString bagHashtag])
    else
      joinSp FIXED_HASHTAGS
  | none => joinSp FIXED_HASHTAGS

/-! ### `getRandomItems` (src/server.js lines 192-195) -/

/-- Shallow embedding of `getRandomItems(array, count)` from src/server.js
lines 192-195.  `shuffle` is the oracle for
`[...array].sort(() => 0.5 - Math.random())`: a sort by a random
inconsistent comparator, whose output is some permutation of its input (a
hypothesis in the theorems).  The sort acts on the spread copy, so the
second component — the array after the call — is the untouched input.
With `count === 1` the function returns the element `shuffled[0]`
(`none` when the array is empty), otherwise the array
`shuffled.slice(0, count)`. -/
def getRandomItems {α : Type} (shuffle : List α → List α)
    (array : List α) (count : Nat) : (Option α ⊕ List α) × List α :=
  let shuffled := shuffle array
  (if count = 1 then Sum.inl shuffled.head? else Sum.inr (shuffled.take count),
   array)

/-! ### Helper lemmas -/

/-- Within one request each provider function is invoked at most once. -/
lemma calls_le_one (env : Env) (dalleNet : DalleHttp) (gemNet : Except String GemResp)
    (bufRoundtrip : String → String) (req : GenRequest) :
    (imagen3Generate env dalleNet gemNet bufRoundtrip req).2.dalle ≤ 1 ∧
    (imagen3Generate env dalleNet gemNet bufRoundtrip req).2.gemini ≤ 1 := by
  unfold imagen3Generate
  repeat' split
  all_goals simp

/-- Every error thrown by `generateWithGemini` has a non-empty message. -/
lemma gemini_error_ne_empty (env : Env) (net : Except String GemResp)
    (bufRoundtrip : String → String) (r b p : Option String) (e : String)
    (h : generateWithGemini env net bufRoundtrip r b p = .error e) : e ≠ "" := by
  have hlen : 0 < e.length := by
    unfold generateWithGemini at h
    split at h
    · cases h; decide
    · split at h
      · cases h
        rw [String.length_append]
        have h15 : ("Gemini failed: ").length = 15 := rfl
        omega
      · split at h
        · cases h; decide
        · split at h
          · cases h; decide
          · split at h
            · cases h; decide
            · cases h
  intro he
  rw [he] at hlen
  simp at hlen

/-! ### C1: Provider A configured and succeeding -/

/-- C1: for every generation request on POST /api/imagen3/generate that
passes validation, if OPENAI_API_KEY is configured (truthy) and the DALLE-3
provider returns a usable image, the response is 200 with `success = true`,
carries exactly that image with `method = "DALLE-3"`, and the Gemini
provider is never invoked (call count 0). -/
theorem c1_providerA_success (env : Env) (dalleNet : DalleHttp)
    (gemNet : Except String GemResp) (bufRoundtrip : String → String)
    (req : GenRequest) (img : String)
    (hval : truthy req.referenceImageBase64 = true)
    (hprompt : truthy req.prompt = true)
    (hkey : truthy env.OPENAI_API_KEY = true)
    (hA : generateWithDALLE3 env dalleNet req.referenceImageBase64 req.prompt
            = .ok img) :
    imagen3Generate env dalleNet gemNet bufRoundtrip req
      = (⟨200, true, some img, some "DALLE-3", none⟩, ⟨1, 0⟩) := by
  simp [imagen3Generate, hval, hprompt, hkey, hA]

/-- Witness for C1 at a concrete environment, request and provider
behaviour. -/
theorem c1_providerA_success_witness :
    imagen3Generate ⟨some "k", none, some "g", none, none, none⟩
        ⟨none, true, 200, "", some "u", "IMG"⟩ (.ok ⟨[]⟩) (fun s => s)
        ⟨some "r", none, some "p"⟩
      = (⟨200, true, some "IMG", some "DALLE-3", none⟩, ⟨1, 0⟩) :=
  c1_providerA_success _ _ _ _ _ _ rfl rfl rfl rfl

/-! ### C2: Provider A configured but failing, Gemini succeeding -/

/-- C2: for every request that passes validation with OPENAI_API_KEY
configured, if the DALLE-3 provider fails (throws, non-2xx or malformed
body — all surfaced as `Except.error`), then the Gemini provider is invoked
exactly once afterwards; when Gemini succeeds, the response is 200 with
`success = true` and `method = "Gemini"` and carries no error field; and
the response does not depend on which error DALLE-3 failed with. -/
theorem c2_fallback_on_dalle_failure (env : Env) (dalleNet : DalleHttp)
    (gemNet : Except String GemResp) (bufRoundtrip : String → String)
    (req : GenRequest) (eA : String)
    (hval : truthy req.referenceImageBase64 = true)
    (hprompt : truthy req.prompt = true)
    (hkey : truthy env.OPENAI_API_KEY = true)
    (hA : generateWithDALLE3 env dalleNet req.referenceImageBase64 req.prompt
            = .error eA) :
    (imagen3Generate env dalleNet gemNet bufRoundtrip req).2 = ⟨1, 1⟩ ∧
    (∀ img, generateWithGemini env gemNet bufRoundtrip
        req.referenceImageBase64 req.bagImageBase64 req.prompt = .ok img →
      imagen3Generate env dalleNet gemNet bufRoundtrip req
        = (⟨200, true, some img, some "Gemini", none⟩, ⟨1, 1⟩)) ∧
    (∀ dalleNet2 eA2,
      generateWithDALLE3 env dalleNet2 req.referenceImageBase64 req.prompt
          = .error eA2 →
      imagen3Generate env dalleNet2 gemNet bufRoundtrip req
        = imagen3Generate env dalleNet gemNet bufRoundtrip req) := by
  refine ⟨?_, ?_, ?_⟩
  · simp only [imagen3Generate, hval, hprompt, hkey, hA]
    cases generateWithGemini env gemNet bufRoundtrip
        req.referenceImageBase64 req.bagImageBase64 req.prompt <;> simp
  · intro img hg
    simp [imagen3Generate, hval, hprompt, hkey, hA, hg]
  · intro dalleNet2 eA2 hA2
    simp only [imagen3Generate, hval, hprompt, hkey, hA, hA2]

/-- Witness for C2 at a concrete failing DALLE-3 exchange and succeeding
Gemini exchange. -/
theorem c2_fallback_on_dalle_failure_witness :
    (imagen3Generate ⟨some "k", none, some "g", none, none, none⟩
        ⟨none, false, 500, "boom", none, ""⟩
        (.ok ⟨[[⟨some ⟨some "D", some "image/png"⟩, none⟩]]⟩) (fun s => s)
        ⟨some "r", none, some "p"⟩).2 = ⟨1, 1⟩ :=
  (c2_fallback_on_dalle_failure ⟨some "k", none, some "g", none, none, none⟩
      ⟨none, false, 500, "boom", none, ""⟩
      (.ok ⟨[[⟨some ⟨some "D", some "image/png"⟩, none⟩]]⟩) (fun s => s)
      ⟨some "r", none, some "p"⟩
      "DALLE-3 API error (500): boom" rfl rfl rfl rfl).1

/-! ### C3: Provider A not configured -/

/-- C3: for every request that passes validation with no OPENAI_API_KEY
configured, the handler never calls the DALLE-3 provider and calls the
Gemini provider exactly once; moreover, on any request at all each provider
is attempted at most once (no retry of the same provider). -/
theorem c3_skip_unconfigured_providerA (env : Env) (dalleNet : DalleHttp)
    (gemNet : Except String GemResp) (bufRoundtrip : String → String)
    (req : GenRequest)
    (hval : truthy req.referenceImageBase64 = true)
    (hprompt : truthy req.prompt = true)
    (hkey : truthy env.OPENAI_API_KEY = false) :
    (imagen3Generate env dalleNet gemNet bufRoundtrip req).2 = ⟨0, 1⟩ ∧
    (∀ (env2 : Env) (dalleNet2 : DalleHttp) (gemNet2 : Except String GemResp)
        (bufRoundtrip2 : String → String) (req2 : GenRequest),
      (imagen3Generate env2 dalleNet2 gemNet2 bufRoundtrip2 req2).2.dalle ≤ 1 ∧
      (imagen3Generate env2 dalleNet2 gemNet2 bufRoundtrip2 req2).2.gemini ≤ 1) := by
  constructor
  · simp only [imagen3Generate, hval, hprompt, hkey]
    cases generateWithGemini env gemNet bufRoundtrip
        req.referenceImageBase64 req.bagImageBase64 req.prompt <;> simp
  · exact fun env2 dn2 gn2 br2 req2 => calls_le_one env2 dn2 gn2 br2 req2

/-- Witness for C3 at a concrete environment without an OPENAI key. -/
theorem c3_skip_unconfigured_providerA_witness :
    (imagen3Generate ⟨none, none, some "g", none, none, none⟩
        ⟨none, true, 200, "", some "u", "IMG"⟩
        (.ok ⟨[[⟨some ⟨some "D", some "image/png"⟩, none⟩]]⟩) (fun s => s)
        ⟨some "r", none, some "p"⟩).2 = ⟨0, 1⟩ :=
  (c3_skip_unconfigured_providerA ⟨none, none, some "g", none, none, none⟩
      ⟨none, true, 200, "", some "u", "IMG"⟩
      (.ok ⟨[[⟨some ⟨some "D", some "image/png"⟩, none⟩]]⟩) (fun s => s)
      ⟨some "r", none, some "p"⟩ rfl rfl rfl).1

/-! ### C4: request validation (corrected) -/

/-- C4 counterexample: the part_003 variant of the generate endpoint
rejects a request carrying only the primary image and the prompt with
status 400 (its validation also requires `bagImageBase64`), contradicting
the claim that such a request is not rejected with 400.  No provider is
invoked there either. -/
theorem c4_counterexample :
    (part003Generate ⟨.ok "pid", .ok (some "tok"), none, true, "", some "I"⟩
        ⟨some "r", none, some "p"⟩).1.status = 400 ∧
    (part003Generate ⟨.ok "pid", .ok (some "tok"), none, true, "", some "I"⟩
        ⟨some "r", none, some "p"⟩).2 = false := by
  constructor <;> rfl

/-- C4 as amended: on both the src/server.js endpoint and the part_003
variant, a request missing the primary image or the prompt (absent or
empty) gets status 400 and no provider is invoked; on src/server.js the
secondary image is optional, so a request with primary image and prompt
present is never answered with 400, while the part_003 variant also
requires the secondary image and answers 400 when it is missing. -/
theorem c4_validation_amended (req : GenRequest)
    (hmiss : truthy req.referenceImageBase64 = false ∨ truthy req.prompt = false) :
    (∀ (env : Env) (dalleNet : DalleHttp) (gemNet : Except String GemResp)
        (bufRoundtrip : String → String),
      (imagen3Generate env dalleNet gemNet bufRoundtrip req).1.status = 400 ∧
      (imagen3Generate env dalleNet gemNet bufRoundtrip req).2 = ⟨0, 0⟩) ∧
    (∀ net : Vertex3Net,
      (part003Generate net req).1.status = 400 ∧ (part003Generate net req).2 = false) ∧
    (∀ (env : Env) (dalleNet : DalleHttp) (gemNet : Except String GemResp)
        (bufRoundtrip : String → String) (req2 : GenRequest),
      truthy req2.referenceImageBase64 = true → truthy req2.prompt = true →
      (imagen3Generate env dalleNet gemNet bufRoundtrip req2).1.status ≠ 400) ∧
    (∀ (net : Vertex3Net) (req3 : GenRequest),
      truthy req3.referenceImageBase64 = true → truthy req3.prompt = true →
      truthy req3.bagImageBase64 = false →
      (part003Generate net req3).1.status = 400) := by
  refine ⟨?_, ?_, ?_, ?_⟩
  · intro env dalleNet gemNet bufRoundtrip
    rcases hmiss with h | h <;> simp [imagen3Generate, h]
  · intro net
    rcases hmiss with h | h <;> simp [part003Generate, h]
  · intro env dalleNet gemNet bufRoundtrip req2 h1 h2
    simp only [imagen3Generate, h1, h2]
    simp only [Bool.not_true, Bool.or_self, Bool.false_eq_true, if_false]
    repeat' split
    all_goals simp
  · intro net req3 h1 h2 h3
    simp [part003Generate, h1, h2, h3]

/-- Witness for C4 as amended, at a request with an empty prompt. -/
theorem c4_validation_amended_witness :
    (imagen3Generate ⟨some "k", none, some "g", none, none, none⟩
        ⟨none, true, 200, "", some "u", "IMG"⟩ (.ok ⟨[]⟩) (fun s => s)
        ⟨some "r", none, some ""⟩).1.status = 400 :=
  ((c4_validation_amended ⟨some "r", none, some ""⟩ (Or.inr rfl)).1
    ⟨some "k", none, some "g", none, none, none⟩
    ⟨none, true, 200, "", some "u", "IMG"⟩ (.ok ⟨[]⟩) (fun s => s)).1

/-! ### C5: both providers failing -/

/-- C5: for every request passing validation with OPENAI_API_KEY configured,
if the DALLE-3 provider fails and the Gemini provider also fails, the
response is status 500 with `success = false` and its error field is
exactly the Gemini (last provider) error message; the response is the same
whatever error DALLE-3 failed with, so the DALLE-3 error never reaches the
body. -/
theorem c5_both_fail (env : Env) (dalleNet : DalleHttp)
    (gemNet : Except String GemResp) (bufRoundtrip : String → String)
    (req : GenRequest) (eA eB : String)
    (hval : truthy req.referenceImageBase64 = true)
    (hprompt : truthy req.prompt = true)
    (hkey : truthy env.OPENAI_API_KEY = true)
    (hA : generateWithDALLE3 env dalleNet req.referenceImageBase64 req.prompt
            = .error eA)
    (hB : generateWithGemini env gemNet bufRoundtrip
            req.referenceImageBase64 req.bagImageBase64 req.prompt = .error eB) :
    imagen3Generate env dalleNet gemNet bufRoundtrip req
      = (⟨500, false, none, none, some eB⟩, ⟨1, 1⟩) ∧
    (∀ dalleNet2 eA2,
      generateWithDALLE3 env dalleNet2 req.referenceImageBase64 req.prompt
          = .error eA2 →
      imagen3Generate env dalleNet2 gemNet bufRoundtrip req
        = (⟨500, false, none, none, some eB⟩, ⟨1, 1⟩)) := by
  have hne : eB ≠ "" := gemini_error_ne_empty env gemNet bufRoundtrip
    req.referenceImageBase64 req.bagImageBase64 req.prompt eB hB
  constructor
  · simp [imagen3Generate, hval, hprompt, hkey, hA, hB, hne]
  · intro dalleNet2 eA2 hA2
    simp [imagen3Generate, hval, hprompt, hkey, hA2, hB, hne]

/-- Witness for C5 at concrete failing exchanges for both providers. -/
theorem c5_both_fail_witness :
    imagen3Generate ⟨some "k", none, some "g", none, none, none⟩
        ⟨none, false, 500, "boom", none, ""⟩ (.ok ⟨[]⟩) (fun s => s)
        ⟨some "r", none, some "p"⟩
      = (⟨500, false, none, none,
          some "Gemini failed: Gemini returned no candidates"⟩, ⟨1, 1⟩) :=
  (c5_both_fail ⟨some "k", none, some "g", none, none, none⟩
      ⟨none, false, 500, "boom", none, ""⟩ (.ok ⟨[]⟩) (fun s => s)
      ⟨some "r", none, some "p"⟩
      "DALLE-3 API error (500): boom"
      "Gemini failed: Gemini returned no candidates" rfl rfl rfl rfl rfl).1

/-! ### C6: failure statuses (corrected) -/

/-- C6 counterexample: on src/server.js, with the DALLE-3 provider
returning a 2xx response that lacks a usable image payload (`ok = true`,
no `data.data[0].url`) and the Gemini fallback also failing, the response
status is 500, not the 502 the claim requires for a provider 2xx response
without a usable image. -/
theorem c6_counterexample :
    (imagen3Generate ⟨some "k", none, some "g", none, none, none⟩
        ⟨none, true, 200, "", none, ""⟩ (.ok ⟨[]⟩) (fun s => s)
        ⟨some "r", none, some "p"⟩).1.status = 500 ∧
    (imagen3Generate ⟨some "k", none, some "g", none, none, none⟩
        ⟨none, true, 200, "", none, ""⟩ (.ok ⟨[]⟩) (fun s => s)
        ⟨some "r", none, some "p"⟩).1.status ≠ 502 ∧
    DalleHttp.ok ⟨none, true, 200, "", none, ""⟩ = true ∧
    DalleHttp.imageUrl ⟨none, true, 200, "", none, ""⟩ = none := by
  refine ⟨rfl, ?_, rfl, rfl⟩
  decide

/-- C6 as amended: on the src/server.js generate endpoint every request
that passes validation is answered either 200 with `success = true` and no
error field, or 500 with `success = false`, no image, and a string error
field; the status is never 502, even when a provider returned a 2xx
response lacking a usable image (the 502 body exists only in the part_001
variant). -/
theorem c6_failure_status_amended (env : Env) (dalleNet : DalleHttp)
    (gemNet : Except String GemResp) (bufRoundtrip : String → String)
    (req : GenRequest)
    (hval : truthy req.referenceImageBase64 = true)
    (hprompt : truthy req.prompt = true) :
    ((imagen3Generate env dalleNet gemNet bufRoundtrip req).1.status = 200 ∧
     (imagen3Generate env dalleNet gemNet bufRoundtrip req).1.success = true ∧
     (imagen3Generate env dalleNet gemNet bufRoundtrip req).1.error = none) ∨
    ((imagen3Generate env dalleNet gemNet bufRoundtrip req).1.status = 500 ∧
     (imagen3Generate env dalleNet gemNet bufRoundtrip req).1.success = false ∧
     (imagen3Generate env dalleNet gemNet bufRoundtrip req).1.image = none ∧
     ∃ e, (imagen3Generate env dalleNet gemNet bufRoundtrip req).1.error = some e) := by
  simp only [imagen3Generate, hval, hprompt]
  simp only [Bool.not_true, Bool.or_self, Bool.false_eq_true, if_false]
  repeat' split
  all_goals simp

/-- Witness for C6 as amended at a concrete failing request. -/
theorem c6_failure_status_amended_witness :
    ((imagen3Generate ⟨some "k", none, some "g", none, none, none⟩
        ⟨none, true, 200, "", none, ""⟩ (.ok ⟨[]⟩) (fun s => s)
        ⟨some "r", none, some "p"⟩).1.status = 200 ∧
     (imagen3Generate ⟨some "k", none, some "g", none, none, none⟩
        ⟨none, true, 200, "", none, ""⟩ (.ok ⟨[]⟩) (fun s => s)
        ⟨some "r", none, some "p"⟩).1.success = true ∧
     (imagen3Generate ⟨some "k", none, some "g", none, none, none⟩
        ⟨none, true, 200, "", none, ""⟩ (.ok ⟨[]⟩) (fun s => s)
        ⟨some "r", none, some "p"⟩).1.error = none) ∨
    ((imagen3Generate ⟨some "k", none, some "g", none, none, none⟩
        ⟨none, true, 200, "", none, ""⟩ (.ok ⟨[]⟩) (fun s => s)
        ⟨some "r", none, some "p"⟩).1.status = 500 ∧
     (imagen3Generate ⟨some "k", none, some "g", none, none, none⟩
        ⟨none, true, 200, "", none, ""⟩ (.ok ⟨[]⟩) (fun s => s)
        ⟨some "r", none, some "p"⟩).1.success = false ∧
     (imagen3Generate ⟨some "k", none, some "g", none, none, none⟩
        ⟨none, true, 200, "", none, ""⟩ (.ok ⟨[]⟩) (fun s => s)
        ⟨some "r", none, some "p"⟩).1.image = none ∧
     ∃ e, (imagen3Generate ⟨some "k", none, some "g", none, none, none⟩
        ⟨none, true, 200, "", none, ""⟩ (.ok ⟨[]⟩) (fun s => s)
        ⟨some "r", none, some "p"⟩).1.error = some e) :=
  c6_failure_status_amended ⟨some "k", none, some "g", none, none, none⟩
    ⟨none, true, 200, "", none, ""⟩ (.ok ⟨[]⟩) (fun s => s)
    ⟨some "r", none, some "p"⟩ rfl rfl

/-! ### C7: shape invariant of the GenerationResult -/

/-- C7: every response of the src/server.js generate endpoint satisfies the
GenerationResult shape invariant: when `success` is true an image is
present, and when `success` is false the body carries an error message and
no image (exactly one of the two fields). -/
theorem c7_result_shape (env : Env) (dalleNet : DalleHttp)
    (gemNet : Except String GemResp) (bufRoundtrip : String → String)
    (req : GenRequest) :
    ((imagen3Generate env dalleNet gemNet bufRoundtrip req).1.success = true →
      ∃ i, (imagen3Generate env dalleNet gemNet bufRoundtrip req).1.image = some i) ∧
    ((imagen3Generate env dalleNet gemNet bufRoundtrip req).1.success = false →
      (imagen3Generate env dalleNet gemNet bufRoundtrip req).1.image = none ∧
      ∃ e, (imagen3Generate env dalleNet gemNet bufRoundtrip req).1.error = some e) := by
  unfold imagen3Generate
  repeat' split
  all_goals simp

/-- Witness for C7 at a concrete failing request: success is false and the
body carries an error and no image. -/
theorem c7_result_shape_witness :
    (imagen3Generate ⟨none, none, none, none, none, none⟩
        ⟨none, true, 200, "", none, ""⟩ (.ok ⟨[]⟩) (fun s => s)
        ⟨some "r", none, some "p"⟩).1.image = none ∧
    ∃ e, (imagen3Generate ⟨none, none, none, none, none, none⟩
        ⟨none, true, 200, "", none, ""⟩ (.ok ⟨[]⟩) (fun s => s)
        ⟨some "r", none, some "p"⟩).1.error = some e :=
  (c7_result_shape ⟨none, none, none, none, none, none⟩
      ⟨none, true, 200, "", none, ""⟩ (.ok ⟨[]⟩) (fun s => s)
      ⟨some "r", none, some "p"⟩).2 rfl

/-! ### C8: /diag and credential secrecy (corrected) -/

/-- C8 counterexample: the part_001 variant of `/diag` does not satisfy the
noninterference property.  Two environments whose credentials have
identical presence (every field truthy in one iff truthy in the other) but
a different private-key value produce different `/diag` responses, because
the handler reports the private key length `pk_len` (and echoes
`GOOGLE_CLIENT_EMAIL` and `GOOGLE_PROJECT_ID` verbatim). -/
theorem c8_counterexample :
    (truthy (some "BEGIN PRIVATE KEY a") = truthy (some "BEGIN PRIVATE KEY ab")) ∧
    diag001 ⟨none, none, none, some "BEGIN PRIVATE KEY a", some "e@x", some "pid"⟩
      ≠ diag001 ⟨none, none, none, some "BEGIN PRIVATE KEY ab", some "e@x", some "pid"⟩ := by
  constructor
  · rfl
  · decide

/-- C8 as amended: the src/server.js `/diag` handler reports only boolean
presence flags for the provider credentials and never echoes their values:
for any two environments in which each credential is truthy in one iff in
the other, the credential-related response fields coincide.  The part_001
variant violates this (see the counterexample): it echoes the project id
and client email and reports the private key length. -/
theorem c8_diag_noninterference (driveReady : Bool) (env env2 : Env)
    (hopenai : truthy env.OPENAI_API_KEY = truthy env2.OPENAI_API_KEY)
    (hgemini : truthy env.VITE_API_KEY = truthy env2.VITE_API_KEY) :
    diag driveReady env = diag driveReady env2 := by
  simp [diag, hopenai, hgemini]

/-- Witness for C8 as amended: two environments with equal credential
presence but different key values get the same `/diag` credential fields. -/
theorem c8_diag_noninterference_witness :
    diag true ⟨some "secret-a", none, some "g1", none, none, none⟩
      = diag true ⟨some "secret-b", none, some "g2", none, none, none⟩ :=
  c8_diag_noninterference true
    ⟨some "secret-a", none, some "g1", none, none, none⟩
    ⟨some "secret-b", none, some "g2", none, none, none⟩ rfl rfl

/-! ### C9: getRandomItems -/

/-- C9: whenever the random sort produces a permutation of its input (which
`Array.prototype.sort` always does, even with the inconsistent comparator
`() => 0.5 - Math.random()`), `getRandomItems(a, 1)` on a non-empty array
returns a single element of `a` (not a one-element array), for any count
distinct from 1 it returns an array of length `min count a.length` whose
elements all belong to `a`, and in all cases the input array is left
unmodified because the sort acts on a spread copy. -/
theorem c9_getRandomItems {α : Type} (shuffle : List α → List α)
    (array : List α) (hshuffle : ∀ l, (shuffle l).Perm l) :
    (array ≠ [] → ∃ x, (getRandomItems shuffle array 1).1 = Sum.inl (some x)
        ∧ x ∈ array) ∧
    (∀ count, count ≠ 1 → ∃ l, (getRandomItems shuffle array count).1 = Sum.inr l
        ∧ l.length = min count array.length ∧ ∀ x ∈ l, x ∈ array) ∧
    (∀ count, (getRandomItems shuffle array count).2 = array) := by
  have hperm := hshuffle array
  refine ⟨?_, ?_, fun count => rfl⟩
  · intro hne
    cases hsh : shuffle array with
    | nil =>
      exact absurd ((hsh ▸ hperm).symm.eq_nil) hne
    | cons c t =>
      refine ⟨c, ?_, ?_⟩
      · simp [getRandomItems, hsh]
      · exact hperm.mem_iff.mp (by simp [hsh])
  · intro count hc
    refine ⟨(shuffle array).take count, ?_, ?_, ?_⟩
    · simp [getRandomItems, hc]
    · rw [List.length_take, hperm.length_eq]
    · intro x hx
      exact hperm.mem_iff.mp (List.take_subset count (shuffle array) hx)

/-- Witness for C9 with the identity permutation on a concrete array. -/
theorem c9_getRandomItems_witness :
    (∃ x, (getRandomItems (fun l => l) [1, 2, 3] 1).1 = Sum.inl (some x)
        ∧ x ∈ [1, 2, 3]) ∧
    (getRandomItems (fun l => l) [1, 2, 3] 2).2 = [1, 2, 3] :=
  ⟨(c9_getRandomItems (fun l => l) [1, 2, 3] (fun l => List.Perm.refl l)).1
      (by decide),
   (c9_getRandomItems (fun l => l) [1, 2, 3] (fun l => List.Perm.refl l)).2.2 2⟩

/-! ### C10: generateHashtags (corrected) -/

/-- Joining with a single trailing extra element appends it after one
space. -/
lemma joinSp_fixed_append (s : String) :
    joinSp (FIXED_HASHTAGS ++ [s]) = joinSp FIXED_HASHTAGS ++ (" " ++ s) := by
  apply String.ext
  simp [FIXED_HASHTAGS, joinSp, String.data_append]

/-- A string with a non-empty left append factor is non-empty. -/
lemma append_ne_empty_left (x y : String) (hx : x ≠ "") : x ++ y ≠ "" := by
  intro h
  apply hx
  have hd := congrArg String.data h
  rw [String.data_append] at hd
  have hx0 : x.data = [] := (List.append_eq_nil.mp hd).1
  exact String.ext hx0

/-- Key absence makes an association-list lookup miss. -/
lemma lookup_eq_none_of_notMem (l : List (String × String)) (name : String)
    (h : name ∉ l.map Prod.fst) : l.lookup name = none := by
  induction l with
  | nil => rfl
  | cons hd tl ih =>
    simp only [List.map_cons, List.mem_cons, not_or] at h
    cases hd with
    | mk k v =>
      have hne : (name == k) = false := beq_eq_false_iff_ne.mpr h.1
      simp only [List.lookup, hne]
      exact ih h.2

/-- C10 counterexample: `generateHashtags "toString"` is not the four fixed
hashtags, although "toString" is not one of the seven keys of
BAG_HASHTAG_MAP: the property read on the object literal finds the
`Object.prototype.toString` function, which is truthy, gets pushed, and is
stringified into the joined result. -/
theorem c10_counterexample :
    generateHashtags "toString"
        ≠ "#luxuryhandbag #bagoftheday #designer #fashion" ∧
    "toString" ∉ BAG_HASHTAG_MAP.map Prod.fst := by
  constructor
  · decide
  · decide

/-- C10 as amended: every result of generateHashtags begins with the four
fixed hashtags joined by single spaces and is non-empty; for each of the
seven keys of BAG_HASHTAG_MAP the mapped hashtag string is appended after
one further space; and for every other name the result is exactly the four
fixed hashtags — except for names of members inherited from
`Object.prototype` (such as "toString" or "constructor"), whose truthy
inherited value is appended in stringified form. -/
theorem c10_generateHashtags_amended :
    (∀ name, generateHashtags name = joinSp FIXED_HASHTAGS ∨
      ∃ rest, generateHashtags name = joinSp FIXED_HASHTAGS ++ (" " ++ rest)) ∧
    (∀ name, generateHashtags name ≠ "") ∧
    (∀ kv ∈ BAG_HASHTAG_MAP,
      generateHashtags kv.1 = joinSp FIXED_HASHTAGS ++ (" " ++ kv.2)) ∧
    (∀ name, name ∉ BAG_HASHTAG_MAP.map Prod.fst →
      name ∉ objectPrototypeMembers.map Prod.fst →
      generateHashtags name = joinSp FIXED_HASHTAGS) := by
  have hstarts : ∀ name, generateHashtags name = joinSp FIXED_HASHTAGS ∨
      ∃ rest, generateHashtags name = joinSp FIXED_HASHTAGS ++ (" " ++ rest) := by
    intro name
    cases hm : bagMapRead name with
    | none => left; simp [generateHashtags, hm]
    | some v =>
      cases htv : jsValTruthy v with
      | false => left; simp [generateHashtags, hm, htv]
      | true =>
        right
        exact ⟨jsValToString v, by simp [generateHashtags, hm, htv, joinSp_fixed_append]⟩
  refine ⟨hstarts, ?_, ?_, ?_⟩
  · intro name
    rcases hstarts name with h | ⟨rest, h⟩
    · rw [h]; decide
    · rw [h]
      exact append_ne_empty_left _ _ (by decide)
  · decide
  · intro name h1 h2
    simp [generateHashtags, bagMapRead,
      lookup_eq_none_of_notMem BAG_HASHTAG_MAP name h1,
      lookup_eq_none_of_notMem objectPrototypeMembers name h2]

/-- Witness for C10 as amended at the key "hermes" and an unmapped name. -/
theorem c10_generateHashtags_amended_witness :
    generateHashtags "hermes" = joinSp FIXED_HASHTAGS ++ (" " ++ "#hermes #birkin") ∧
    generateHashtags "prada" = joinSp FIXED_HASHTAGS :=
  ⟨c10_generateHashtags_amended.2.2.1 ("hermes", "#hermes #birkin") (by decide),
   c10_generateHashtags_amended.2.2.2 "prada" (by decide) (by decide)⟩

end Bagify
